import Mathlib

set_option maxRecDepth 100000

/-!
Shallow embedding of `src/ml/recommender.py` (Codeforces problem recommender).

Conventions of the embedding:
* A pandas DataFrame of problems is a `List Problem` (row order = corpus order).
* Missing JSON fields / NaN cells are `Option` values (`rating`, `solvedCount`).
* Machine floats are modelled by exact rationals `ℚ`; a cosine-similarity
  value `dot / (‖u‖ * ‖v‖)` is represented exactly by the pair
  `SimScore.mk dot (‖u‖² * ‖v‖²)`, denoting `dot / sqrt den2` when `den2 ≠ 0`
  and `0` when `den2 = 0` (sklearn's zero-norm convention makes `num = 0`
  exactly in that case).  `simLE` decides the order of two such values.
* A `requests.get` + `.json()` call is a `FetchResult` input: `.error ()` is a
  raised transport / decoding exception, `.ok` a decoded JSON payload.
* `pandas.DataFrame.sort_values('similarity', ascending=False)` is called with
  its default `kind='quicksort'`, which guarantees a descending order of the
  key column but (per the pandas documentation) is not a stable sort: the
  relative order of tied keys is unspecified (and in numpy depends on the
  version and hardware dispatch).  The sort is therefore modelled by an
  arbitrary index list `sortPerm` constrained, in the theorems, by
  `ValidDescPerm`: it must be a permutation of the row positions that makes
  the key column non-increasing.  Every behaviour of the real code is one
  choice of `sortPerm`.
-/

namespace CFRec

/-- A row of `problems_df`: one Codeforces problem as stored in the corpus.
`rating`/`solvedCount` are `Option` because the JSON field may be absent
(a NaN cell in the DataFrame). -/
structure Problem where
  contestId : Int
  index : String
  rating : Option Int
  solvedCount : Option Int
  tags : List String
deriving DecidableEq, Repr

/-- `f"{row['contestId']}_{row['index']}"` — the identity key of a problem. -/
def problemId (p : Problem) : String :=
  toString p.contestId ++ "_" ++ p.index

/-- One submission record from the `user.status` endpoint. -/
structure Submission where
  verdict : String
  contestId : Int
  index : String
deriving DecidableEq, Repr

/-- `f"{sub['problem']['contestId']}_{sub['problem']['index']}"`. -/
def subProblemId (s : Submission) : String :=
  toString s.contestId ++ "_" ++ s.index

/-- Decoded JSON payload of the `user.status` endpoint. -/
structure UserStatusResponse where
  status : String
  result : List Submission
deriving DecidableEq, Repr

/-- Outcome of a `requests.get(...)` + `response.json()` call: `.error ()` is a
raised exception (transport failure, bad JSON), `.ok` the decoded payload. -/
abbrev FetchResult (α : Type) := Except Unit α

/-- The solved-problem identity set derived from a submission list:
ids of submissions whose verdict is `"OK"` (lines 161–167 / 222–226). -/
def solvedIdsOf (subs : List Submission) : List String :=
  (subs.filter (fun s => s.verdict == "OK")).map subProblemId

/-! ### Feature composition (`process_problem_features`, lines 116–145) -/

/-- `' '.join(x)` over a problem's tag list (line 103 / 123). -/
def tagsText (p : Problem) : String :=
  String.intercalate " " p.tags

/-- `np.min` of a column. -/
def listMin : List ℚ → ℚ
  | [] => 0
  | x :: xs => xs.foldl min x

/-- `np.max` of a column. -/
def listMax : List ℚ → ℚ
  | [] => 0
  | x :: xs => xs.foldl max x

/-- `sklearn.preprocessing.MinMaxScaler().fit_transform` on one column with the
default feature range `[0, 1]`: `(x - min) / (max - min)`, where a zero data
range is replaced by `1` (sklearn `_handle_zeros_in_scale`), so a constant
column maps to all zeros instead of dividing by zero. -/
def minMaxScale (xs : List ℚ) : List ℚ :=
  let lo := listMin xs
  let range := listMax xs - lo
  let scale := if range = 0 then 1 else range
  xs.map (fun x => (x - lo) / scale)

/-- `self.problems_df['rating'].fillna(1500)` applied to one row (line 130).
Note this default-fill produces a fresh column for the scaler; it does not
modify `problems_df` itself. -/
def fillRating (p : Problem) : ℚ :=
  ((p.rating.getD 1500 : Int) : ℚ)

/-- `self.problems_df['solvedCount'].fillna(0)` applied to one row (line 135). -/
def fillSolved (p : Problem) : ℚ :=
  ((p.solvedCount.getD 0 : Int) : ℚ)

/-- `process_problem_features` (lines 116–145): per problem, the TF-IDF vector
of its tag text, then the min-max–scaled rating, then the min-max–scaled
solved count, horizontally stacked.  The fitted `TfidfVectorizer` is the
external model object `tfidf : String → List ℚ` (its `transform` on one
document). -/
def process_problem_features (tfidf : String → List ℚ) (problems_df : List Problem) :
    List (List ℚ) :=
  let tagRows := problems_df.map (fun p => tfidf (tagsText p))
  let ratings_scaled := minMaxScale (problems_df.map fillRating)
  let solved_scaled := minMaxScale (problems_df.map fillSolved)
  List.zipWith (fun t rs => t ++ rs) tagRows
    (List.zipWith (fun r s => [r, s]) ratings_scaled solved_scaled)

/-! ### Cosine similarity (`sklearn.metrics.pairwise.cosine_similarity`) -/

/-- Dot product of two float vectors (trailing entries of the longer vector are
ignored; the real code only ever compares equal-length vectors). -/
def dotQ (u v : List ℚ) : ℚ :=
  (List.zipWith (fun a b => a * b) u v).sum

/-- Squared Euclidean norm. -/
def normSq (u : List ℚ) : ℚ :=
  dotQ u u

/-- Exact representation of one cosine-similarity value: `SimScore.mk d q`
denotes `d / Real.sqrt q` when `q ≠ 0` and `0` when `q = 0`. -/
structure SimScore where
  num : ℚ
  den2 : ℚ
deriving DecidableEq, Repr

/-- `cosine_similarity([u], [v])[0][0]`: sklearn normalizes each vector,
replacing a zero norm by 1, then takes the dot product — so the value is
`dot u v / (‖u‖ ‖v‖)` unless a norm is zero, in which case it is `0`.
Represented exactly as `⟨dot u v, ‖u‖² ‖v‖²⟩` (when a norm is zero the dot
product is zero too, so the pair `⟨0, 0⟩` correctly denotes `0`). -/
def cosineSimilarity (u v : List ℚ) : SimScore :=
  ⟨dotQ u v, normSq u * normSq v⟩

/-- Order on denoted similarity values, decided exactly on the representation:
compare signs of the numerators, then compare squares scaled by the opposite
squared denominators. -/
def simLE (s t : SimScore) : Bool :=
  if s.num < 0 then
    if t.num < 0 then decide (t.num * t.num * s.den2 ≤ s.num * s.num * t.den2)
    else true
  else if s.num = 0 then decide (0 ≤ t.num)
  else if t.num ≤ 0 then false
  else decide (s.num * s.num * t.den2 ≤ t.num * t.num * s.den2)

/-- `cosine_similarity([user_vector], self.problem_vectors)[0]` (line 210):
one similarity score per feature-matrix row. -/
def similarityScores (u : List ℚ) (problem_vectors : List (List ℚ)) : List SimScore :=
  problem_vectors.map (cosineSimilarity u)

/-! ### `create_user_vector` (lines 147–197) -/

/-- `np.mean(m, axis=0)`: the column-wise mean of a matrix. -/
def npMeanAxis0 (m : List (List ℚ)) : List ℚ :=
  match m with
  | [] => []
  | r :: _ =>
    (List.range r.length).map
      (fun j => (m.map (fun row => row.getD j 0)).sum / (m.length : ℚ))

/-- The `problem_indices` loop of `create_user_vector` (lines 175–179):
positions of the corpus rows whose identity key is in the solved set
(`iterrows` yields the positional index of a freshly built DataFrame). -/
def problemIndices (problems_df : List Problem) (solved_problems : List String) :
    List Nat :=
  (List.range problems_df.length).filter
    (fun i =>
      match problems_df.get? i with
      | some p => decide (problemId p ∈ solved_problems)
      | none => false)

/-- `create_user_vector` (lines 147–197).  `fetch` is the outcome of the
`user.status` request; the whole body is inside `try/except`, so any raised
exception returns `None`.  With an `"OK"` payload: the solved id set is
derived; if it is empty, or no corpus row's id is in it, the vector is the
column-wise mean of the whole feature matrix; otherwise the mean of the rows
at the matching positions (a matching position beyond the feature matrix
raises `IndexError`, caught as `None`). -/
def create_user_vector (fetch : FetchResult UserStatusResponse)
    (problems_df : List Problem) (problem_vectors : List (List ℚ)) :
    Option (List ℚ) :=
  match fetch with
  | .error _ => none
  | .ok data =>
    if data.status ≠ "OK" then none
    else
      if (solvedIdsOf data.result).isEmpty then some (npMeanAxis0 problem_vectors)
      else
        if (problemIndices problems_df (solvedIdsOf data.result)).isEmpty then
          some (npMeanAxis0 problem_vectors)
        else if (problemIndices problems_df (solvedIdsOf data.result)).all
            (fun i => decide (i < problem_vectors.length)) then
          some (npMeanAxis0 ((problemIndices problems_df (solvedIdsOf data.result)).map
            (fun i => problem_vectors.getD i [])))
        else none

/-! ### `get_recommendations` (lines 199–260) -/

/-- A row of `recommendations_df` after the `similarity` and `problem_id`
columns are attached (lines 232–238). -/
structure RecRow where
  problem : Problem
  similarity : SimScore
  problem_id : String
deriving DecidableEq, Repr

/-- Lines 202–207: use the cached vector when present (and a list), otherwise
call `create_user_vector`. -/
def userVectorFor (cachedVector : Option (List ℚ))
    (createFetch : FetchResult UserStatusResponse)
    (problems_df : List Problem) (problem_vectors : List (List ℚ)) :
    Option (List ℚ) :=
  match cachedVector with
  | some v => some v
  | none => create_user_vector createFetch problems_df problem_vectors

/-- Lines 213–229: the solved set used by the exclusion filter; on a raised
exception or a non-`"OK"` status it is the empty set. -/
def solvedSetFor (fetch : FetchResult UserStatusResponse) : List String :=
  match fetch with
  | .error _ => []
  | .ok data => if data.status ≠ "OK" then [] else solvedIdsOf data.result

/-- Lines 232–238: copy the corpus, attach the similarity column and the
`problem_id` column. -/
def baseRows (problems_df : List Problem) (sims : List SimScore) : List RecRow :=
  List.zipWith (fun p s => ⟨p, s, problemId p⟩) problems_df sims

/-- Line 243: `recommendations_df[recommendations_df['rating'] >= min_rating]`.
A NaN rating compares as false, so a missing rating fails the filter. -/
def applyRatingMin : Option Int → List RecRow → List RecRow
  | none, rows => rows
  | some m, rows =>
    rows.filter (fun r =>
      match r.problem.rating with
      | none => false
      | some x => decide (m ≤ x))

/-- Line 246: `recommendations_df[recommendations_df['rating'] <= max_rating]`. -/
def applyRatingMax : Option Int → List RecRow → List RecRow
  | none, rows => rows
  | some m, rows =>
    rows.filter (fun r =>
      match r.problem.rating with
      | none => false
      | some x => decide (x ≤ m))

/-- Lines 248–251: keep rows with `any(tag in x for tag in tags)`. -/
def applyTagFilter : Option (List String) → List RecRow → List RecRow
  | none, rows => rows
  | some ts, rows =>
    rows.filter (fun r => ts.any (fun t => decide (t ∈ r.problem.tags)))

/-- Lines 232–251: attach columns, drop rows whose `problem_id` is in the
solved set, then apply the optional rating and tag filters in source order. -/
def filteredRows (problems_df : List Problem) (problem_vectors : List (List ℚ))
    (user_vector : List ℚ) (solvedFetch : FetchResult UserStatusResponse)
    (min_rating max_rating : Option Int) (tags : Option (List String)) :
    List RecRow :=
  applyTagFilter tags (applyRatingMax max_rating (applyRatingMin min_rating
    ((baseRows problems_df (similarityScores user_vector problem_vectors)).filter
      (fun r => !(decide (r.problem_id ∈ solvedSetFor solvedFetch))))))

/-- Reorder rows by an index list (the permutation chosen by the sort). -/
def applyPerm {α : Type} (perm : List Nat) (rows : List α) : List α :=
  perm.filterMap (fun i => rows.get? i)

/-- The contract of `sort_values('similarity', ascending=False)` with the
default (unstable) `kind='quicksort'`: the chosen index list is a permutation
of the row positions and the key column read along it is non-increasing.
Nothing constrains the relative order of tied keys. -/
def ValidDescPerm (perm : List Nat) (keys : List SimScore) : Prop :=
  List.Perm perm (List.range keys.length) ∧
  List.Pairwise (fun a b => simLE b a = true) (applyPerm perm keys)

instance (perm : List Nat) (keys : List SimScore) : Decidable (ValidDescPerm perm keys) := by
  unfold ValidDescPerm
  infer_instance

/-- `get_recommendations` (lines 199–260).  `createFetch` is the submission
fetch made inside `create_user_vector` (on a cache miss), `solvedFetch` the
second submission fetch at lines 213–215, and `sortPerm` the row permutation
chosen by the unstable sort (constrained by `ValidDescPerm` in the theorems). -/
def get_recommendations (problems_df : List Problem)
    (problem_vectors : List (List ℚ)) (cachedVector : Option (List ℚ))
    (createFetch solvedFetch : FetchResult UserStatusResponse)
    (sortPerm : List Nat) (n_recommendations : Nat)
    (min_rating max_rating : Option Int) (tags : Option (List String)) :
    List RecRow :=
  match userVectorFor cachedVector createFetch problems_df problem_vectors with
  | none => []
  | some user_vector =>
    let rows := filteredRows problems_df problem_vectors user_vector solvedFetch
      min_rating max_rating tags
    (applyPerm sortPerm rows).take n_recommendations

/-! ### `fetch_problems` (lines 59–94) -/

/-- One element of `result.problems` from the `problemset.problems` endpoint. -/
structure RawProblem where
  contestId : Int
  index : String
  rating : Option Int
  tags : List String
deriving DecidableEq, Repr

/-- One element of `result.problemStatistics`; `solvedCount` may be absent
(`stat.get('solvedCount', 0)`). -/
structure ProblemStat where
  contestId : Int
  index : String
  solvedCount : Option Int
deriving DecidableEq, Repr

/-- Decoded JSON payload of the `problemset.problems` endpoint. -/
structure ProblemsetResponse where
  status : String
  problems : List RawProblem
  problemStatistics : List ProblemStat
deriving DecidableEq, Repr

/-- The corpus-bearing state of the recommender: the in-memory DataFrame, the
persisted `problems_data.json` copy, and `last_update`. -/
structure RecState where
  problems_df : Option (List Problem)
  persisted : Option (List Problem)
  last_update : Nat
deriving DecidableEq, Repr

/-- `f"{stat['contestId']}_{stat['index']}"`. -/
def statKey (s : ProblemStat) : String :=
  toString s.contestId ++ "_" ++ s.index

/-- `stats_dict.get(key, 0)` where `stats_dict[key] = stat.get('solvedCount', 0)`
(lines 70–73); a later duplicate key overwrites an earlier one, hence the
lookup takes the last matching statistic. -/
def statsLookup (stats : List ProblemStat) (key : String) : Int :=
  match stats.reverse.find? (fun s => statKey s == key) with
  | some s => s.solvedCount.getD 0
  | none => 0

/-- Lines 75–78: attach `solvedCount` to every fetched problem. -/
def mergeProblems (resp : ProblemsetResponse) : List Problem :=
  resp.problems.map (fun p =>
    { contestId := p.contestId
      index := p.index
      rating := p.rating
      solvedCount := some (statsLookup resp.problemStatistics
        (toString p.contestId ++ "_" ++ p.index))
      tags := p.tags })

/-- `fetch_problems` (lines 59–94) as a state transition.  The whole body is
inside `try/except`; a raised exception or a non-`"OK"` status returns
`False` and leaves the state untouched; on success the merged problem list
replaces both the in-memory DataFrame and the persisted copy, and
`last_update` is set to the current time. -/
def fetch_problems (st : RecState) (fetch : FetchResult ProblemsetResponse)
    (now : Nat) : Bool × RecState :=
  match fetch with
  | .error _ => (false, st)
  | .ok data =>
    if data.status = "OK" then
      let merged := mergeProblems data
      (true, { problems_df := some merged, persisted := some merged, last_update := now })
    else (false, st)

/-! ### Predicates used to state the claims, and concrete inputs -/

/-- The tie-breaking discipline asserted by the spec for the ranker's output:
whenever two returned rows have equal similarity scores, the earlier row's
problem occurs earlier in the corpus. -/
def corpusTieOrderPreserved (problems_df : List Problem) (out : List RecRow) : Prop :=
  List.Pairwise (fun a b =>
    simLE a.similarity b.similarity = true → simLE b.similarity a.similarity = true →
      (problems_df.map problemId).indexOf a.problem_id <
        (problems_df.map problemId).indexOf b.problem_id) out

instance (problems_df : List Problem) (out : List RecRow) :
    Decidable (corpusTieOrderPreserved problems_df out) := by
  unfold corpusTieOrderPreserved
  infer_instance

/-- A trivial fitted vectorizer used in concrete witnesses. -/
def exTfidf : String → List ℚ := fun _ => [1]

/-- Concrete corpus problems for witnesses. -/
def exProbA : Problem := ⟨1, "A", some 800, some 1, ["math"]⟩

def exProbB : Problem := ⟨2, "B", some 1200, some 2, ["dp"]⟩

def exDf : List Problem := [exProbA, exProbB]

/-- Concrete feature matrix with identical rows (so both similarity scores are
the same, producing a tie). -/
def exPv : List (List ℚ) := [[1], [1]]

def exSubA : Submission := ⟨"OK", 1, "A"⟩

def exRespA : UserStatusResponse := ⟨"OK", [exSubA]⟩

def exRespEmpty : UserStatusResponse := ⟨"OK", []⟩

def exRespBad : UserStatusResponse := ⟨"FAILED", []⟩

/-- A problem with no rating (a NaN cell in the `rating` column). -/
def exProbNR : Problem := ⟨1, "A", none, some 10, ["math"]⟩

def exDfNR : List Problem := [exProbNR]

/-- The feature matrix built from the unrated corpus; the missing rating is
default-filled to 1500 here (and only here). -/
def exPvNR : List (List ℚ) := process_problem_features exTfidf exDfNR

/-- Problems with constant rating and solved-count columns. -/
def exProbC1 : Problem := ⟨1, "A", some 1000, some 5, ["a"]⟩

def exProbC2 : Problem := ⟨2, "B", some 1000, some 5, ["b"]⟩

def exDfConst : List Problem := [exProbC1, exProbC2]

/-- A concrete recommender state holding a one-problem corpus. -/
def exState : RecState := ⟨some [exProbA], some [exProbA], 5⟩

/-- The recommendation row carrying `exProbB` (similarity 1 against the user
vector `[1]`). -/
def exRowB : RecRow := ⟨exProbB, ⟨1, 1⟩, "2_B"⟩

/-! ### Helper lemmas -/

lemma mem_of_mem_applyPerm {α : Type} {perm : List Nat} {rows : List α} {r : α}
    (h : r ∈ applyPerm perm rows) : r ∈ rows := by
  rcases List.mem_filterMap.1 h with ⟨i, _, hi⟩
  exact List.get?_mem hi

lemma applyPerm_map {α β : Type} (f : α → β) (perm : List Nat) (rows : List α) :
    applyPerm perm (rows.map f) = (applyPerm perm rows).map f := by
  unfold applyPerm
  rw [List.map_filterMap]
  simp [List.get?_map]

lemma mem_of_mem_applyRatingMin {mn : Option Int} {rows : List RecRow} {r : RecRow}
    (h : r ∈ applyRatingMin mn rows) : r ∈ rows := by
  cases mn with
  | none => exact h
  | some m => exact (List.mem_filter.1 h).1

lemma mem_of_mem_applyRatingMax {mx : Option Int} {rows : List RecRow} {r : RecRow}
    (h : r ∈ applyRatingMax mx rows) : r ∈ rows := by
  cases mx with
  | none => exact h
  | some m => exact (List.mem_filter.1 h).1

lemma mem_of_mem_applyTagFilter {tg : Option (List String)} {rows : List RecRow} {r : RecRow}
    (h : r ∈ applyTagFilter tg rows) : r ∈ rows := by
  cases tg with
  | none => exact h
  | some ts => exact (List.mem_filter.1 h).1

lemma rating_of_mem_applyRatingMin {m : Int} {rows : List RecRow} {r : RecRow}
    (h : r ∈ applyRatingMin (some m) rows) :
    ∃ x, r.problem.rating = some x ∧ m ≤ x := by
  have hp := (List.mem_filter.1 h).2
  cases hx : r.problem.rating with
  | none => rw [hx] at hp; simp at hp
  | some x =>
    rw [hx] at hp
    exact ⟨x, rfl, of_decide_eq_true hp⟩

lemma rating_of_mem_applyRatingMax {m : Int} {rows : List RecRow} {r : RecRow}
    (h : r ∈ applyRatingMax (some m) rows) :
    ∃ x, r.problem.rating = some x ∧ x ≤ m := by
  have hp := (List.mem_filter.1 h).2
  cases hx : r.problem.rating with
  | none => rw [hx] at hp; simp at hp
  | some x =>
    rw [hx] at hp
    exact ⟨x, rfl, of_decide_eq_true hp⟩

lemma tag_of_mem_applyTagFilter {ts : List String} {rows : List RecRow} {r : RecRow}
    (h : r ∈ applyTagFilter (some ts) rows) :
    ∃ t ∈ ts, t ∈ r.problem.tags := by
  have hp := (List.mem_filter.1 h).2
  rcases List.any_eq_true.1 hp with ⟨t, ht, hdec⟩
  exact ⟨t, ht, of_decide_eq_true hdec⟩

lemma not_solved_of_mem_filteredRows {problems_df : List Problem}
    {pv : List (List ℚ)} {u : List ℚ} {sf : FetchResult UserStatusResponse}
    {mn mx : Option Int} {tg : Option (List String)} {r : RecRow}
    (h : r ∈ filteredRows problems_df pv u sf mn mx tg) :
    r.problem_id ∉ solvedSetFor sf := by
  unfold filteredRows at h
  have h1 := mem_of_mem_applyRatingMin
    (mem_of_mem_applyRatingMax (mem_of_mem_applyTagFilter h))
  have h2 := (List.mem_filter.1 h1).2
  simpa using h2

lemma mem_get_recommendations_elim {problems_df : List Problem}
    {pv : List (List ℚ)} {cached : Option (List ℚ)}
    {cf sf : FetchResult UserStatusResponse} {perm : List Nat} {n : Nat}
    {mn mx : Option Int} {tg : Option (List String)} {r : RecRow}
    (h : r ∈ get_recommendations problems_df pv cached cf sf perm n mn mx tg) :
    ∃ u, userVectorFor cached cf problems_df pv = some u ∧
      r ∈ filteredRows problems_df pv u sf mn mx tg := by
  unfold get_recommendations at h
  cases hu : userVectorFor cached cf problems_df pv with
  | none => rw [hu] at h; simp at h
  | some u =>
    rw [hu] at h
    exact ⟨u, rfl, mem_of_mem_applyPerm (List.mem_of_mem_take h)⟩

lemma dotQ_nil_left (v : List ℚ) : dotQ [] v = 0 := rfl

lemma dotQ_nil_right (u : List ℚ) : dotQ u [] = 0 := by
  cases u <;> rfl

lemma dotQ_cons (a b : ℚ) (u v : List ℚ) :
    dotQ (a :: u) (b :: v) = a * b + dotQ u v := by
  simp [dotQ, List.zipWith]

lemma normSq_cons (a : ℚ) (u : List ℚ) : normSq (a :: u) = a * a + normSq u := by
  simp [normSq, dotQ_cons]

lemma normSq_nonneg (u : List ℚ) : 0 ≤ normSq u := by
  induction u with
  | nil => simp [normSq, dotQ_nil_left]
  | cons a u ih =>
    rw [normSq_cons]
    exact add_nonneg (mul_self_nonneg a) ih

lemma dotQ_comm (u v : List ℚ) : dotQ u v = dotQ v u := by
  unfold dotQ
  rw [List.zipWith_comm_of_comm]
  intro a b
  exact mul_comm a b

lemma dotQ_eq_zero_of_normSq_eq_zero {u : List ℚ} (h : normSq u = 0) :
    ∀ v : List ℚ, dotQ u v = 0 := by
  induction u with
  | nil => intro v; exact dotQ_nil_left v
  | cons a u ih =>
    intro v
    rw [normSq_cons] at h
    have hparts := (add_eq_zero_iff_of_nonneg (mul_self_nonneg a) (normSq_nonneg u)).1 h
    have ha : a = 0 := mul_self_eq_zero.1 hparts.1
    cases v with
    | nil => exact dotQ_nil_right _
    | cons b v =>
      rw [dotQ_cons, ha, ih hparts.2 v]
      ring

lemma foldl_min_le (l : List ℚ) : ∀ a x : ℚ, x = a ∨ x ∈ l → l.foldl min a ≤ x := by
  induction l with
  | nil =>
    rintro a x (rfl | h)
    · exact le_refl x
    · cases h
  | cons b l ih =>
    rintro a x (rfl | h)
    · exact le_trans (ih (min x b) (min x b) (Or.inl rfl)) (min_le_left x b)
    · rcases List.mem_cons.1 h with rfl | h
      · exact le_trans (ih (min a x) (min a x) (Or.inl rfl)) (min_le_right a x)
      · exact ih (min a b) x (Or.inr h)

lemma foldl_max_le (l : List ℚ) : ∀ a x : ℚ, x = a ∨ x ∈ l → x ≤ l.foldl max a := by
  induction l with
  | nil =>
    rintro a x (rfl | h)
    · exact le_refl x
    · cases h
  | cons b l ih =>
    rintro a x (rfl | h)
    · exact le_trans (le_max_left x b) (ih (max x b) (max x b) (Or.inl rfl))
    · rcases List.mem_cons.1 h with rfl | h
      · exact le_trans (le_max_right a x) (ih (max a x) (max a x) (Or.inl rfl))
      · exact ih (max a b) x (Or.inr h)

lemma foldl_min_mem (l : List ℚ) : ∀ a : ℚ, l.foldl min a = a ∨ l.foldl min a ∈ l := by
  induction l with
  | nil => intro a; exact Or.inl rfl
  | cons b l ih =>
    intro a
    rcases ih (min a b) with h | h
    · show l.foldl min (min a b) = a ∨ l.foldl min (min a b) ∈ b :: l
      rcases min_cases a b with ⟨hm, _⟩ | ⟨hm, _⟩
      · exact Or.inl (by rw [h, hm])
      · exact Or.inr (by rw [h, hm]; exact List.mem_cons_self b l)
    · exact Or.inr (List.mem_cons_of_mem b h)

lemma listMin_le {l : List ℚ} {x : ℚ} (hx : x ∈ l) : listMin l ≤ x := by
  cases l with
  | nil => cases hx
  | cons a l =>
    rcases List.mem_cons.1 hx with rfl | h
    · exact foldl_min_le l x x (Or.inl rfl)
    · exact foldl_min_le l a x (Or.inr h)

lemma le_listMax {l : List ℚ} {x : ℚ} (hx : x ∈ l) : x ≤ listMax l := by
  cases l with
  | nil => cases hx
  | cons a l =>
    rcases List.mem_cons.1 hx with rfl | h
    · exact foldl_max_le l x x (Or.inl rfl)
    · exact foldl_max_le l a x (Or.inr h)

lemma listMin_mem {l : List ℚ} (h : l ≠ []) : listMin l ∈ l := by
  cases l with
  | nil => exact absurd rfl h
  | cons a l =>
    rcases foldl_min_mem l a with h' | h'
    · show l.foldl min a ∈ a :: l
      rw [h']
      exact List.mem_cons_self a l
    · exact List.mem_cons_of_mem a h'

lemma minMaxScale_mem_bounds {xs : List ℚ}
    (hd : ∃ a ∈ xs, ∃ b ∈ xs, a ≠ b) :
    ∀ y ∈ minMaxScale xs, 0 ≤ y ∧ y ≤ 1 := by
  obtain ⟨a, ha, b, hb, hab⟩ := hd
  have hlt : listMin xs < listMax xs := by
    rcases lt_or_le (listMin xs) (listMax xs) with h | h
    · exact h
    · exfalso
      apply hab
      have h1 : a = listMin xs :=
        le_antisymm (le_trans (le_listMax ha) h) (listMin_le ha)
      have h2 : b = listMin xs :=
        le_antisymm (le_trans (le_listMax hb) h) (listMin_le hb)
      rw [h1, h2]
  intro y hy
  unfold minMaxScale at hy
  rcases List.mem_map.1 hy with ⟨x, hx, rfl⟩
  have hrange : listMax xs - listMin xs ≠ 0 := sub_ne_zero.2 (ne_of_gt hlt)
  rw [if_neg hrange]
  have hpos : 0 < listMax xs - listMin xs := sub_pos.2 hlt
  constructor
  · exact div_nonneg (sub_nonneg.2 (listMin_le hx)) (le_of_lt hpos)
  · rw [div_le_one hpos]
    exact sub_le_sub_right (le_listMax hx) _

lemma minMaxScale_const_zero {xs : List ℚ}
    (h : ∀ a ∈ xs, ∀ b ∈ xs, a = b) :
    ∀ y ∈ minMaxScale xs, y = 0 := by
  intro y hy
  unfold minMaxScale at hy
  rcases List.mem_map.1 hy with ⟨x, hx, rfl⟩
  have hxlo : x = listMin xs :=
    h x hx (listMin xs) (listMin_mem (List.ne_nil_of_mem hx))
  rw [hxlo, sub_self, zero_div]

lemma exists_of_mem_zipWith {α β γ : Type} {f : α → β → γ} {l₁ : List α}
    {l₂ : List β} {c : γ} (h : c ∈ List.zipWith f l₁ l₂) :
    ∃ a ∈ l₁, ∃ b ∈ l₂, c = f a b := by
  induction l₁ generalizing l₂ with
  | nil => simp [List.zipWith] at h
  | cons a l₁ ih =>
    cases l₂ with
    | nil => simp [List.zipWith] at h
    | cons b l₂ =>
      rcases List.mem_cons.1 h with rfl | h
      · exact ⟨a, List.mem_cons_self a l₁, b, List.mem_cons_self b l₂, rfl⟩
      · rcases ih h with ⟨a', ha, b', hb, rfl⟩
        exact ⟨a', List.mem_cons_of_mem a ha, b', List.mem_cons_of_mem b hb, rfl⟩

lemma process_problem_features_length (tfidf : String → List ℚ)
    (problems_df : List Problem) :
    (process_problem_features tfidf problems_df).length = problems_df.length := by
  unfold process_problem_features minMaxScale
  simp [List.length_zipWith]

lemma solvedSetFor_ok {data : UserStatusResponse} (hok : data.status = "OK") :
    solvedSetFor (Except.ok data) = solvedIdsOf data.result := by
  simp [solvedSetFor, hok]

lemma problemIndices_eq_nil {problems_df : List Problem} {solved : List String}
    (h : ∀ p ∈ problems_df, problemId p ∉ solved) :
    problemIndices problems_df solved = [] := by
  apply List.filter_eq_nil.2
  intro i _
  cases hgi : problems_df.get? i with
  | none => simp [hgi]
  | some p => simpa [hgi] using h p (List.get?_mem hgi)

/-! ### Claim theorems -/

/-- Claim C1: for every user and every recommendation request, no problem
whose identity key (`contestId_index`) is in the user's solved set (the set
derived from an `"OK"` submission response) appears in the list returned by
`get_recommendations`. -/
theorem solved_problems_never_recommended
    (problems_df : List Problem) (problem_vectors : List (List ℚ))
    (cachedVector : Option (List ℚ)) (createFetch : FetchResult UserStatusResponse)
    (data : UserStatusResponse) (sortPerm : List Nat) (n : Nat)
    (min_rating max_rating : Option Int) (tags : Option (List String))
    (hok : data.status = "OK") (r : RecRow)
    (hr : r ∈ get_recommendations problems_df problem_vectors cachedVector
      createFetch (Except.ok data) sortPerm n min_rating max_rating tags) :
    r.problem_id ∉ solvedIdsOf data.result := by
  rcases mem_get_recommendations_elim hr with ⟨u, _, hf⟩
  have hns := not_solved_of_mem_filteredRows hf
  rw [solvedSetFor_ok hok] at hns
  exact hns

/-- Claim C2 (amended): the list returned by `get_recommendations` is sorted
by similarity score in descending order; the relative order of problems with
equal similarity scores is unspecified, since the sort runs with the default
unstable `kind='quicksort'`. -/
theorem recommendations_sorted_descending
    (problems_df : List Problem) (problem_vectors : List (List ℚ))
    (cachedVector : Option (List ℚ))
    (createFetch solvedFetch : FetchResult UserStatusResponse) (u : List ℚ)
    (sortPerm : List Nat) (n : Nat) (min_rating max_rating : Option Int)
    (tags : Option (List String))
    (hu : userVectorFor cachedVector createFetch problems_df problem_vectors = some u)
    (hperm : ValidDescPerm sortPerm
      ((filteredRows problems_df problem_vectors u solvedFetch min_rating
        max_rating tags).map (fun r => r.similarity))) :
    List.Pairwise (fun a b => simLE b.similarity a.similarity = true)
      (get_recommendations problems_df problem_vectors cachedVector createFetch
        solvedFetch sortPerm n min_rating max_rating tags) := by
  unfold get_recommendations
  rw [hu]
  have h2 := hperm.2
  rw [applyPerm_map] at h2
  have h3 := List.pairwise_map.1 h2
  exact List.Pairwise.sublist (List.take_sublist _ _) h3

/-- Claim C2 counterexample: a run of the code consistent with the contract of
the default unstable sort (`ValidDescPerm`) in which two problems with equal
similarity scores are returned in the reverse of their corpus order — the
claimed tie-breaking by original corpus order is not guaranteed by the code. -/
theorem unstable_sort_can_reverse_tied_corpus_order :
    ValidDescPerm [1, 0]
      ((filteredRows exDf exPv [1] (Except.error ()) none none none).map
        (fun r => r.similarity)) ∧
    ¬ corpusTieOrderPreserved exDf
      (get_recommendations exDf exPv (some [1]) (Except.error ())
        (Except.error ()) [1, 0] 10 none none none) :=
  ⟨of_decide_eq_true (by with_unfolding_all rfl),
   of_decide_eq_true (by with_unfolding_all rfl)⟩

/-- Claim C3: when the submission fetch succeeds with status `"OK"` and the
derived solved set is empty, or no corpus problem's identity key is in it,
`create_user_vector` returns the column-wise mean of the entire feature
matrix. -/
theorem default_profile_is_corpus_mean
    (data : UserStatusResponse) (problems_df : List Problem)
    (problem_vectors : List (List ℚ)) (hok : data.status = "OK")
    (h : solvedIdsOf data.result = [] ∨
      ∀ p ∈ problems_df, problemId p ∉ solvedIdsOf data.result) :
    create_user_vector (Except.ok data) problems_df problem_vectors =
      some (npMeanAxis0 problem_vectors) := by
  simp only [create_user_vector]
  rw [if_neg (by simp [hok])]
  rcases h with h | h
  · rw [h]
    rfl
  · have hfil : problemIndices problems_df (solvedIdsOf data.result) = [] :=
      problemIndices_eq_nil h
    by_cases he : (solvedIdsOf data.result).isEmpty = true
    · rw [if_pos he]
    · rw [if_neg he, hfil]
      rfl

/-- Claim C4: every problem returned by `get_recommendations` satisfies the
supplied rating bounds (its rating is present and within them) and, when a
tag set is supplied, has at least one tag among the supplied ones. -/
theorem returned_problems_satisfy_filters
    (problems_df : List Problem) (problem_vectors : List (List ℚ))
    (cachedVector : Option (List ℚ))
    (createFetch solvedFetch : FetchResult UserStatusResponse)
    (sortPerm : List Nat) (n : Nat) (min_rating max_rating : Option Int)
    (tags : Option (List String)) (r : RecRow)
    (hr : r ∈ get_recommendations problems_df problem_vectors cachedVector
      createFetch solvedFetch sortPerm n min_rating max_rating tags) :
    (∀ m, min_rating = some m → ∃ x, r.problem.rating = some x ∧ m ≤ x) ∧
    (∀ m, max_rating = some m → ∃ x, r.problem.rating = some x ∧ x ≤ m) ∧
    (∀ ts, tags = some ts → ∃ t ∈ ts, t ∈ r.problem.tags) := by
  rcases mem_get_recommendations_elim hr with ⟨u, _, hf⟩
  unfold filteredRows at hf
  refine ⟨?_, ?_, ?_⟩
  · rintro m rfl
    exact rating_of_mem_applyRatingMin
      (mem_of_mem_applyRatingMax (mem_of_mem_applyTagFilter hf))
  · rintro m rfl
    exact rating_of_mem_applyRatingMax (mem_of_mem_applyTagFilter hf)
  · rintro ts rfl
    exact tag_of_mem_applyTagFilter hf

/-- Claim C5 counterexample: the 1500 default-fill happens only on the copy of
the rating column fed to the scaler; the DataFrame used by the ranker still
has a missing rating at scoring/filter time.  With no bounds the unrated
problem is returned with its rating still missing; with `min_rating = 1000`
the rating filter does encounter the missing rating and drops the problem,
even though its default-filled value 1500 passes the bound. -/
theorem missing_rating_reaches_ranker_filters :
    ((get_recommendations exDfNR exPvNR (some [1, 0, 0]) (Except.error ())
        (Except.error ()) [0] 10 none none none).map
      (fun r => r.problem.rating)) = [none] ∧
    get_recommendations exDfNR exPvNR (some [1, 0, 0]) (Except.error ())
      (Except.error ()) [0] 10 (some 1000) none none = [] ∧
    fillRating exProbNR = 1500 ∧ ((1000 : ℚ) ≤ 1500) := by
  refine ⟨?_, ?_, ?_, ?_⟩ <;> exact of_decide_eq_true (by with_unfolding_all rfl)

/-- Claim C5 (amended): the default-fill applies only to the feature matrix,
so a problem's rating can still be missing at the ranker's filter step; but
whenever `min_rating` or `max_rating` is supplied, every returned problem has
a present rating (rows with a missing rating fail the NaN comparison and are
excluded). -/
theorem rating_bounds_exclude_missing_rating
    (problems_df : List Problem) (problem_vectors : List (List ℚ))
    (cachedVector : Option (List ℚ))
    (createFetch solvedFetch : FetchResult UserStatusResponse)
    (sortPerm : List Nat) (n : Nat) (min_rating max_rating : Option Int)
    (tags : Option (List String))
    (hb : min_rating ≠ none ∨ max_rating ≠ none) (r : RecRow)
    (hr : r ∈ get_recommendations problems_df problem_vectors cachedVector
      createFetch solvedFetch sortPerm n min_rating max_rating tags) :
    r.problem.rating ≠ none := by
  rcases mem_get_recommendations_elim hr with ⟨u, _, hf⟩
  unfold filteredRows at hf
  rcases hb with hb | hb
  · rcases Option.ne_none_iff_exists'.1 hb with ⟨m, rfl⟩
    rcases rating_of_mem_applyRatingMin
      (mem_of_mem_applyRatingMax (mem_of_mem_applyTagFilter hf)) with ⟨x, hx, _⟩
    simp [hx]
  · rcases Option.ne_none_iff_exists'.1 hb with ⟨m, rfl⟩
    rcases rating_of_mem_applyRatingMax (mem_of_mem_applyTagFilter hf) with ⟨x, hx, _⟩
    simp [hx]

/-- Claim C6: when no cached vector exists and `create_user_vector` fails (the
submission fetch raises or reports a non-`"OK"` status), `get_recommendations`
returns the empty list (the embedding is a total function, so no exception
escapes to the caller). -/
theorem unobtainable_user_vector_returns_empty
    (problems_df : List Problem) (problem_vectors : List (List ℚ))
    (createFetch solvedFetch : FetchResult UserStatusResponse)
    (sortPerm : List Nat) (n : Nat) (min_rating max_rating : Option Int)
    (tags : Option (List String))
    (h : createFetch = Except.error () ∨
      ∃ data, createFetch = Except.ok data ∧ data.status ≠ "OK") :
    get_recommendations problems_df problem_vectors none createFetch solvedFetch
      sortPerm n min_rating max_rating tags = [] := by
  have huser : userVectorFor none createFetch problems_df problem_vectors = none := by
    unfold userVectorFor
    rcases h with rfl | ⟨data, rfl, hs⟩
    · rfl
    · simp only [create_user_vector]
      rw [if_pos hs]
  unfold get_recommendations
  rw [huser]

/-- Claim C7: when the corpus refresh fails (the fetch raises, or the payload
status is not `"OK"`), `fetch_problems` returns `false` and both the
in-memory corpus and its persisted copy are exactly what they were before the
call — no partial overwrite occurs. -/
theorem failed_refresh_preserves_corpus
    (st : RecState) (fetch : FetchResult ProblemsetResponse) (now : Nat)
    (h : fetch = Except.error () ∨
      ∃ data, fetch = Except.ok data ∧ data.status ≠ "OK") :
    fetch_problems st fetch now = (false, st) ∧
    (fetch_problems st fetch now).2.problems_df = st.problems_df ∧
    (fetch_problems st fetch now).2.persisted = st.persisted := by
  have hmain : fetch_problems st fetch now = (false, st) := by
    rcases h with rfl | ⟨data, rfl, hs⟩
    · rfl
    · simp [fetch_problems, hs]
  exact ⟨hmain, by rw [hmain], by rw [hmain]⟩

/-- Claim C8: cosine similarity is computed by a total function for the user
vector against every feature-matrix row (one score per row, never raising),
and a zero-norm argument yields the zero similarity value by sklearn's
convention (the representation `⟨0, 0⟩`, which compares equal to the true
zero score `⟨0, 1⟩` in both directions). -/
theorem cosine_similarity_total_and_zero_convention
    (u : List ℚ) (problem_vectors : List (List ℚ)) :
    (similarityScores u problem_vectors).length = problem_vectors.length ∧
    ∀ v ∈ problem_vectors, normSq u = 0 ∨ normSq v = 0 →
      cosineSimilarity u v = ⟨0, 0⟩ ∧
      simLE (cosineSimilarity u v) ⟨0, 1⟩ = true ∧
      simLE ⟨0, 1⟩ (cosineSimilarity u v) = true := by
  refine ⟨by simp [similarityScores], ?_⟩
  intro v _ h
  have hnum : dotQ u v = 0 := by
    rcases h with h | h
    · exact dotQ_eq_zero_of_normSq_eq_zero h v
    · rw [dotQ_comm]
      exact dotQ_eq_zero_of_normSq_eq_zero h u
  have hden : normSq u * normSq v = 0 := by
    rcases h with h | h
    · rw [h, zero_mul]
    · rw [h, mul_zero]
  have hcs : cosineSimilarity u v = ⟨0, 0⟩ := by
    unfold cosineSimilarity
    rw [hnum, hden]
  refine ⟨hcs, ?_, ?_⟩ <;> rw [hcs] <;> decide

/-- Claim C9: when the default-filled rating column and the default-filled
solved-count column each take more than one distinct value, every entry of
the scaled rating column and of the scaled solved-count column of the feature
matrix produced by `process_problem_features` lies within `[0, 1]`. -/
theorem scaled_feature_columns_in_unit_interval
    (tfidf : String → List ℚ) (problems_df : List Problem)
    (hr : ∃ a ∈ problems_df.map fillRating, ∃ b ∈ problems_df.map fillRating, a ≠ b)
    (hs : ∃ a ∈ problems_df.map fillSolved, ∃ b ∈ problems_df.map fillSolved, a ≠ b) :
    ∀ row ∈ process_problem_features tfidf problems_df,
      ∃ t r s, row = t ++ [r, s] ∧ 0 ≤ r ∧ r ≤ 1 ∧ 0 ≤ s ∧ s ≤ 1 := by
  intro row hrow
  simp only [process_problem_features] at hrow
  rcases exists_of_mem_zipWith hrow with ⟨t, _, rs, hrs, rfl⟩
  rcases exists_of_mem_zipWith hrs with ⟨r, hrmem, s, hsmem, rfl⟩
  obtain ⟨h1, h2⟩ := minMaxScale_mem_bounds hr r hrmem
  obtain ⟨h3, h4⟩ := minMaxScale_mem_bounds hs s hsmem
  exact ⟨t, r, s, rfl, h1, h2, h3, h4⟩

/-- Claim C10: `process_problem_features` never divides by zero on a constant
column: it always produces one feature row per problem, and when the
default-filled rating column (resp. solved-count column) is constant the
corresponding scaled column is all zeros (sklearn's zero-range convention). -/
theorem constant_feature_columns_scale_to_zero
    (tfidf : String → List ℚ) (problems_df : List Problem) :
    (process_problem_features tfidf problems_df).length = problems_df.length ∧
    ∀ row ∈ process_problem_features tfidf problems_df,
      ∃ t r s, row = t ++ [r, s] ∧
        ((∀ a ∈ problems_df.map fillRating, ∀ b ∈ problems_df.map fillRating, a = b) →
          r = 0) ∧
        ((∀ a ∈ problems_df.map fillSolved, ∀ b ∈ problems_df.map fillSolved, a = b) →
          s = 0) := by
  refine ⟨process_problem_features_length tfidf problems_df, ?_⟩
  intro row hrow
  simp only [process_problem_features] at hrow
  rcases exists_of_mem_zipWith hrow with ⟨t, _, rs, hrs, rfl⟩
  rcases exists_of_mem_zipWith hrs with ⟨r, hrmem, s, hsmem, rfl⟩
  exact ⟨t, r, s, rfl,
    fun hconst => minMaxScale_const_zero hconst r hrmem,
    fun hconst => minMaxScale_const_zero hconst s hsmem⟩

/-! ### Witnesses: the claim theorems applied at concrete inputs -/

/-- Witness for C1 at a concrete request: the user solved problem `1_A`, and
the returned list contains only `2_B`, whose key is not in the solved set. -/
theorem solved_problems_never_recommended_witness :
    exRespA.status = "OK" ∧
    exRowB ∈ get_recommendations exDf exPv (some [1]) (Except.error ())
      (Except.ok exRespA) [0] 10 none none none ∧
    exRowB.problem_id ∉ solvedIdsOf exRespA.result := by
  have hmem : exRowB ∈ get_recommendations exDf exPv (some [1]) (Except.error ())
      (Except.ok exRespA) [0] 10 none none none :=
    of_decide_eq_true (by with_unfolding_all rfl)
  exact ⟨rfl, hmem,
    solved_problems_never_recommended exDf exPv (some [1]) (Except.error ())
      exRespA [0] 10 none none none rfl exRowB hmem⟩

/-- Witness for the amended C2 at a concrete request with a valid descending
permutation. -/
theorem recommendations_sorted_descending_witness :
    userVectorFor (some [1]) (Except.error ()) exDf exPv = some [1] ∧
    ValidDescPerm [0, 1]
      ((filteredRows exDf exPv [1] (Except.error ()) none none none).map
        (fun r => r.similarity)) ∧
    List.Pairwise (fun a b => simLE b.similarity a.similarity = true)
      (get_recommendations exDf exPv (some [1]) (Except.error ())
        (Except.error ()) [0, 1] 10 none none none) := by
  have hperm : ValidDescPerm [0, 1]
      ((filteredRows exDf exPv [1] (Except.error ()) none none none).map
        (fun r => r.similarity)) :=
    of_decide_eq_true (by with_unfolding_all rfl)
  exact ⟨rfl, hperm,
    recommendations_sorted_descending exDf exPv (some [1]) (Except.error ())
      (Except.error ()) [1] [0, 1] 10 none none none rfl hperm⟩

/-- Witness for C3 at a concrete `"OK"` response with no solved problems. -/
theorem default_profile_is_corpus_mean_witness :
    exRespEmpty.status = "OK" ∧
    (solvedIdsOf exRespEmpty.result = [] ∨
      ∀ p ∈ exDf, problemId p ∉ solvedIdsOf exRespEmpty.result) ∧
    create_user_vector (Except.ok exRespEmpty) exDf exPv =
      some (npMeanAxis0 exPv) :=
  ⟨rfl, Or.inl rfl,
    default_profile_is_corpus_mean exRespEmpty exDf exPv rfl (Or.inl rfl)⟩

/-- Witness for C4 at a concrete request with both rating bounds and a tag
filter supplied. -/
theorem returned_problems_satisfy_filters_witness :
    exRowB ∈ get_recommendations exDf exPv (some [1]) (Except.error ())
      (Except.error ()) [0] 10 (some 1000) (some 1300) (some ["dp"]) ∧
    (∀ m, (some 1000 : Option Int) = some m →
      ∃ x, exRowB.problem.rating = some x ∧ m ≤ x) ∧
    (∀ m, (some 1300 : Option Int) = some m →
      ∃ x, exRowB.problem.rating = some x ∧ x ≤ m) ∧
    (∀ ts, (some ["dp"] : Option (List String)) = some ts →
      ∃ t ∈ ts, t ∈ exRowB.problem.tags) := by
  have hmem : exRowB ∈ get_recommendations exDf exPv (some [1]) (Except.error ())
      (Except.error ()) [0] 10 (some 1000) (some 1300) (some ["dp"]) :=
    of_decide_eq_true (by with_unfolding_all rfl)
  exact ⟨hmem,
    returned_problems_satisfy_filters exDf exPv (some [1]) (Except.error ())
      (Except.error ()) [0] 10 (some 1000) (some 1300) (some ["dp"]) exRowB hmem⟩

/-- Witness for the amended C5 at a concrete request with a lower rating
bound supplied. -/
theorem rating_bounds_exclude_missing_rating_witness :
    ((some 1000 : Option Int) ≠ none ∨ (none : Option Int) ≠ none) ∧
    exRowB ∈ get_recommendations exDf exPv (some [1]) (Except.error ())
      (Except.error ()) [0] 10 (some 1000) none none ∧
    exRowB.problem.rating ≠ none := by
  have hb : (some 1000 : Option Int) ≠ none ∨ (none : Option Int) ≠ none :=
    Or.inl (by simp)
  have hmem : exRowB ∈ get_recommendations exDf exPv (some [1]) (Except.error ())
      (Except.error ()) [0] 10 (some 1000) none none :=
    of_decide_eq_true (by with_unfolding_all rfl)
  exact ⟨hb, hmem,
    rating_bounds_exclude_missing_rating exDf exPv (some [1]) (Except.error ())
      (Except.error ()) [0] 10 (some 1000) none none hb exRowB hmem⟩

/-- Witness for C6 at a concrete failing submission fetch. -/
theorem unobtainable_user_vector_returns_empty_witness :
    ((Except.error () : FetchResult UserStatusResponse) = Except.error () ∨
      ∃ data, (Except.error () : FetchResult UserStatusResponse) = Except.ok data ∧
        data.status ≠ "OK") ∧
    get_recommendations exDf exPv none (Except.error ()) (Except.error ())
      [0] 10 none none none = [] :=
  ⟨Or.inl rfl,
    unobtainable_user_vector_returns_empty exDf exPv (Except.error ())
      (Except.error ()) [0] 10 none none none (Or.inl rfl)⟩

/-- Witness for C7 at a concrete transport failure against a non-empty state. -/
theorem failed_refresh_preserves_corpus_witness :
    ((Except.error () : FetchResult ProblemsetResponse) = Except.error () ∨
      ∃ data, (Except.error () : FetchResult ProblemsetResponse) = Except.ok data ∧
        data.status ≠ "OK") ∧
    fetch_problems exState (Except.error ()) 99 = (false, exState) ∧
    (fetch_problems exState (Except.error ()) 99).2.problems_df = exState.problems_df ∧
    (fetch_problems exState (Except.error ()) 99).2.persisted = exState.persisted :=
  ⟨Or.inl rfl,
    failed_refresh_preserves_corpus exState (Except.error ()) 99 (Or.inl rfl)⟩

/-- Witness for C8 at a concrete zero user vector against a one-row matrix. -/
theorem cosine_similarity_total_and_zero_convention_witness :
    (similarityScores [0, 0] [[1, 2]]).length = ([[1, 2]] : List (List ℚ)).length ∧
    ∀ v ∈ ([[1, 2]] : List (List ℚ)), normSq [0, 0] = 0 ∨ normSq v = 0 →
      cosineSimilarity [0, 0] v = ⟨0, 0⟩ ∧
      simLE (cosineSimilarity [0, 0] v) ⟨0, 1⟩ = true ∧
      simLE ⟨0, 1⟩ (cosineSimilarity [0, 0] v) = true :=
  cosine_similarity_total_and_zero_convention [0, 0] [[1, 2]]

/-- Witness for C9 at a concrete corpus whose rating and solved-count columns
each take two distinct values. -/
theorem scaled_feature_columns_in_unit_interval_witness :
    (∃ a ∈ exDf.map fillRating, ∃ b ∈ exDf.map fillRating, a ≠ b) ∧
    (∃ a ∈ exDf.map fillSolved, ∃ b ∈ exDf.map fillSolved, a ≠ b) ∧
    ∀ row ∈ process_problem_features exTfidf exDf,
      ∃ t r s, row = t ++ [r, s] ∧ 0 ≤ r ∧ r ≤ 1 ∧ 0 ≤ s ∧ s ≤ 1 := by
  have h1 : ∃ a ∈ exDf.map fillRating, ∃ b ∈ exDf.map fillRating, a ≠ b :=
    of_decide_eq_true (by with_unfolding_all rfl)
  have h2 : ∃ a ∈ exDf.map fillSolved, ∃ b ∈ exDf.map fillSolved, a ≠ b :=
    of_decide_eq_true (by with_unfolding_all rfl)
  exact ⟨h1, h2, scaled_feature_columns_in_unit_interval exTfidf exDf h1 h2⟩

/-- Witness for C10 at a concrete corpus with constant rating and solved-count
columns. -/
theorem constant_feature_columns_scale_to_zero_witness :
    (process_problem_features exTfidf exDfConst).length = exDfConst.length ∧
    ∀ row ∈ process_problem_features exTfidf exDfConst,
      ∃ t r s, row = t ++ [r, s] ∧
        ((∀ a ∈ exDfConst.map fillRating, ∀ b ∈ exDfConst.map fillRating, a = b) →
          r = 0) ∧
        ((∀ a ∈ exDfConst.map fillSolved, ∀ b ∈ exDfConst.map fillSolved, a = b) →
          s = 0) :=
  constant_feature_columns_scale_to_zero exTfidf exDfConst

end CFRec
